import Mathlib

/-!
Shallow embedding of the Mergington High School activities API
(`src/app.py`): a file-backed document store (`FileStorage`) over a JSON
object keyed by activity name, plus the HTTP handlers `get_activities`,
`signup_for_activity` and `unregister_from_activity`, and the seeding
step `init_db`.

The JSON file holds a flat object mapping activity name to a record with
fields description, schedule, max_participants and participants; we model
the on-disk state as an insertion-ordered association list
`List (String × Activity)` (Python dicts preserve insertion order and have
unique keys; all operations below act on the first matching key, which
coincides with dict semantics on any store the program can build).
Uncaught Python exceptions (the `ValueError` that `list.remove` raises
when its argument is absent) are modelled by `Except.error`; an
`HTTPException` raised by a handler is an ordinary HTTP outcome and is
modelled by `Response.httpError`.
-/

set_option autoImplicit false

namespace Mergington

/-- An activity record as stored in the JSON file (the value part, without
the `_id` key): fields description, schedule, max_participants and
participants, as in `initial_activities` of `src/app.py`. -/
structure Activity where
  description : String
  schedule : String
  max_participants : Nat
  participants : List String
deriving DecidableEq, Repr

/-- A document as returned by `FileStorage.find` / `FileStorage.find_one`:
the stored record with the key attached as the `_id` field
(`{"_id": k, **v}` in `src/app.py`). -/
structure DocWithId where
  _id : String
  description : String
  schedule : String
  max_participants : Nat
  participants : List String
deriving DecidableEq, Repr

/-- The persisted store: the JSON object mapping activity name to record,
as an insertion-ordered association list. -/
abbrev Store := List (String × Activity)

/-- Python dict lookup `data[k]` / `k in data`: the value at the first
matching key, if any. -/
def dictGet : Store → String → Option Activity
  | [], _ => none
  | (k', v') :: rest, k => if k' = k then some v' else dictGet rest k

/-- Python dict assignment `data[k] = v`: replace the value at the first
matching key in place, or append a new entry at the end. -/
def dictSet : Store → String → Activity → Store
  | [], k, v => [(k, v)]
  | (k', v') :: rest, k, v =>
      if k' = k then (k, v) :: rest else (k', v') :: dictSet rest k v

/-- `{"_id": k, **v}`: attach the key to a stored record. -/
def withId (k : String) (v : Activity) : DocWithId :=
  { _id := k, description := v.description, schedule := v.schedule,
    max_participants := v.max_participants, participants := v.participants }

/-- Dropping the `_id` field of a document (the `doc.pop("_id")` step of
`get_activities`), leaving the value object. -/
def dropId (d : DocWithId) : Activity :=
  { description := d.description, schedule := d.schedule,
    max_participants := d.max_participants, participants := d.participants }

/-- `FileStorage.find`: every stored record with its name attached as the
`_id` field. -/
def find (store : Store) : List DocWithId :=
  store.map fun kv => withId kv.1 kv.2

/-- `FileStorage.find_one({"_id": name})`: look up by exact name; the
record with `_id` attached, or `none`. -/
def find_one (store : Store) (name : String) : Option DocWithId :=
  (dictGet store name).map (withId name)

/-- Python `list.remove(v)`: remove the first element equal to `v`;
`none` models the `ValueError` raised when `v` is absent. -/
def pyRemove : List String → String → Option (List String)
  | [], _ => none
  | x :: xs, v => if x = v then some xs else (pyRemove xs v).map (x :: ·)

/-- The two update documents the program ever passes to
`FileStorage.update_one`, both on the `participants` list field:
`{"$push": {"participants": value}}` and `{"$pull": {"participants": value}}`. -/
inductive UpdateOp where
  | push (value : String)
  | pull (value : String)
deriving DecidableEq, Repr

/-- The `modified_count` carried by the dynamically built result object of
`FileStorage.update_one`. -/
abbrev UpdateResult := Store × Nat

/-- `FileStorage.update_one({"_id": name}, update)`: no record, no write,
`modified_count = 0`; otherwise `$push` appends the value to the
participants list and `$pull` removes its first occurrence via
`list.remove`, which raises `ValueError` (an uncaught exception, modelled
by `Except.error`) when the value is absent — the file is then not
written. On a write, `modified_count = 1`. -/
def update_one (store : Store) (name : String) (op : UpdateOp) :
    Except String UpdateResult :=
  match dictGet store name with
  | none => .ok (store, 0)
  | some act =>
    match op with
    | .push v =>
        .ok (dictSet store name
              { act with participants := act.participants ++ [v] }, 1)
    | .pull v =>
        match pyRemove act.participants v with
        | none => .error "ValueError: list.remove(x): x not in list"
        | some ps =>
            .ok (dictSet store name { act with participants := ps }, 1)

/-- `FileStorage.insert_one`: pop the `_id` of the document and store the
rest under that key, overwriting any existing entry. -/
def insert_one (store : Store) (docId : String) (doc : Activity) : Store :=
  dictSet store docId doc

/-- `FileStorage.count_documents(query)`: `len(self._read())` — the
number of stored activities; the query is accepted but never used. -/
def count_documents (store : Store) (query : List (String × String)) : Nat :=
  store.length

/-- The HTTP outcome of a handler: a JSON success body, or a raised
`HTTPException` with status code and detail. -/
inductive Response where
  | success (message : String)
  | httpError (status : Nat) (detail : String)
deriving DecidableEq, Repr

/-- `GET /activities`: pop the `_id` of each document returned by `find`
and key the result object by it. -/
def get_activities (store : Store) : Store :=
  (find store).map fun doc => (doc._id, dropId doc)

/-- `POST /activities/{activity_name}/signup?email=...`: 404 if the
activity is unknown, 400 if the email is already a participant, else
append via `update_one` with `$push` (500 if that reports
`modified_count = 0`). -/
def signup_for_activity (store : Store) (activity_name email : String) :
    Except String (Response × Store) :=
  match find_one store activity_name with
  | none => .ok (.httpError 404 "Activity not found", store)
  | some activity =>
    if email ∈ activity.participants then
      .ok (.httpError 400 "Student is already signed up", store)
    else
      match update_one store activity_name (.push email) with
      | .error e => .error e
      | .ok (store', modifiedCount) =>
        if modifiedCount = 0 then
          .ok (.httpError 500 "Failed to sign up student", store')
        else
          .ok (.success ("Signed up " ++ email ++ " for " ++ activity_name),
               store')

/-- `POST /activities/{activity_name}/unregister?email=...`: 404 if the
activity is unknown, 400 if the email is not a participant, else remove
via `update_one` with `$pull` (500 if that reports
`modified_count = 0`). -/
def unregister_from_activity (store : Store) (activity_name email : String) :
    Except String (Response × Store) :=
  match find_one store activity_name with
  | none => .ok (.httpError 404 "Activity not found", store)
  | some activity =>
    if email ∉ activity.participants then
      .ok (.httpError 400 "Student is not signed up for this activity", store)
    else
      match update_one store activity_name (.pull email) with
      | .error e => .error e
      | .ok (store', modifiedCount) =>
        if modifiedCount = 0 then
          .ok (.httpError 500 "Failed to unregister student", store')
        else
          .ok (.success ("Unregistered " ++ email ++ " from " ++ activity_name),
               store')

/-! ### Seed data and startup (`initial_activities`, `init_db`) -/

/-- The Chess Club seed record of `initial_activities`. -/
def chessClub : Activity :=
  { description := "Learn strategies and compete in chess tournaments",
    schedule := "Fridays, 3:30 PM - 5:00 PM",
    max_participants := 12,
    participants := ["michael@mergington.edu", "daniel@mergington.edu"] }

/-- The Programming Class seed record of `initial_activities`. -/
def programmingClass : Activity :=
  { description := "Learn programming fundamentals and build software projects",
    schedule := "Tuesdays and Thursdays, 3:30 PM - 4:30 PM",
    max_participants := 20,
    participants := ["emma@mergington.edu", "sophia@mergington.edu"] }

/-- The Gym Class seed record of `initial_activities`. -/
def gymClass : Activity :=
  { description := "Physical education and sports activities",
    schedule := "Mondays, Wednesdays, Fridays, 2:00 PM - 3:00 PM",
    max_participants := 30,
    participants := ["john@mergington.edu", "olivia@mergington.edu"] }

/-- The Soccer Team seed record of `initial_activities`. -/
def soccerTeam : Activity :=
  { description := "Join the school soccer team and compete in matches",
    schedule := "Tuesdays and Thursdays, 4:00 PM - 5:30 PM",
    max_participants := 22,
    participants := ["liam@mergington.edu", "noah@mergington.edu"] }

/-- The Basketball Team seed record of `initial_activities`. -/
def basketballTeam : Activity :=
  { description := "Practice basketball skills and participate in tournaments",
    schedule := "Wednesdays and Fridays, 3:30 PM - 5:00 PM",
    max_participants := 15,
    participants := ["ava@mergington.edu", "mia@mergington.edu"] }

/-- The Art Club seed record of `initial_activities`. -/
def artClub : Activity :=
  { description := "Explore various art techniques and create your own masterpieces",
    schedule := "Mondays, 3:30 PM - 5:00 PM",
    max_participants := 15,
    participants := ["amelia@mergington.edu", "isabella@mergington.edu"] }

/-- The Drama Club seed record of `initial_activities`. -/
def dramaClub : Activity :=
  { description := "Learn acting skills and participate in school plays",
    schedule := "Thursdays, 4:00 PM - 5:30 PM",
    max_participants := 20,
    participants := ["lucas@mergington.edu", "elijah@mergington.edu"] }

/-- The Math Club seed record of `initial_activities`. -/
def mathClub : Activity :=
  { description := "Solve challenging math problems and prepare for competitions",
    schedule := "Wednesdays, 3:30 PM - 4:30 PM",
    max_participants := 10,
    participants := ["charlotte@mergington.edu", "harper@mergington.edu"] }

/-- The Science Club seed record of `initial_activities`. -/
def scienceClub : Activity :=
  { description := "Conduct experiments and explore scientific concepts",
    schedule := "Fridays, 4:00 PM - 5:30 PM",
    max_participants := 12,
    participants := ["evelyn@mergington.edu", "abigail@mergington.edu"] }

/-- `initial_activities`: the 9 seed activities in source order. -/
def initial_activities : Store :=
  [("Chess Club", chessClub),
   ("Programming Class", programmingClass),
   ("Gym Class", gymClass),
   ("Soccer Team", soccerTeam),
   ("Basketball Team", basketballTeam),
   ("Art Club", artClub),
   ("Drama Club", dramaClub),
   ("Math Club", mathClub),
   ("Science Club", scienceClub)]

/-- `init_db`: if the store is empty, `insert_one` each seed activity
keyed by its name (`{"_id": name, **details}`), in order. -/
def init_db (store : Store) : Store :=
  if count_documents store [] = 0 then
    initial_activities.foldl (fun s e => insert_one s e.1 e.2) store
  else
    store

/-! ### Concrete stores used as witnesses -/

/-- A one-activity store used to exercise the handlers on concrete input. -/
def testStore : Store := [("Chess Club", chessClub)]

/-- An activity that is exactly at its capacity (`max_participants = 1`,
one participant). -/
def tinyClub : Activity :=
  { description := "Tiny", schedule := "Never", max_participants := 1,
    participants := ["a@mergington.edu"] }

/-- A store whose single activity is at capacity. -/
def fullStore : Store := [("Tiny Club", tinyClub)]

/-! ### Statements and state machinery used by the claims -/

/-- The C5 claim as stated: for every store, name and update operation,
`update_one` returns `modified_count = 1` whenever a record with that
name exists, and `modified_count = 0` when it does not. -/
def updateOneAlwaysReportsExistence : Prop :=
  ∀ (store : Store) (name : String) (op : UpdateOp),
    (∀ act, dictGet store name = some act →
      ∃ store', update_one store name op = .ok (store', 1)) ∧
    (dictGet store name = none → update_one store name op = .ok (store, 0))

/-- One mutating API call: `POST /activities/{name}/signup?email=...` or
`POST /activities/{name}/unregister?email=...`. -/
inductive ApiCall where
  | signup (activity_name email : String)
  | unregister (activity_name email : String)
deriving DecidableEq, Repr

/-- The store after serving one API call: on a normal HTTP outcome the
handler's resulting store, and on an uncaught exception the unmodified
store (the exception aborts the request before any write). -/
def applyCall (store : Store) : ApiCall → Store
  | .signup name email =>
    match signup_for_activity store name email with
    | .ok (_, store') => store'
    | .error _ => store
  | .unregister name email =>
    match unregister_from_activity store name email with
    | .ok (_, store') => store'
    | .error _ => store

/-- The C10 invariant: no activity's participants list contains a
duplicate email. -/
def NodupParticipants (store : Store) : Prop :=
  ∀ e ∈ store, e.2.participants.Nodup

/-! ### Helper lemmas on the store primitives -/

theorem dictGet_mem {store : Store} {k : String} {v : Activity}
    (h : dictGet store k = some v) : (k, v) ∈ store := by
  induction store with
  | nil => simp [dictGet] at h
  | cons e rest ih =>
    obtain ⟨k', v'⟩ := e
    by_cases hk : k' = k
    · subst hk
      simp [dictGet] at h
      simp [h]
    · simp [dictGet, hk] at h
      exact List.mem_cons_of_mem _ (ih h)

theorem dictGet_dictSet_self (store : Store) (k : String) (v : Activity) :
    dictGet (dictSet store k v) k = some v := by
  induction store with
  | nil => simp [dictGet, dictSet]
  | cons e rest ih =>
    obtain ⟨k', v'⟩ := e
    by_cases hk : k' = k
    · subst hk
      simp [dictGet, dictSet]
    · simp [dictGet, dictSet, hk, ih]

theorem mem_dictSet {store : Store} {k : String} {v : Activity}
    {e : String × Activity} (h : e ∈ dictSet store k v) :
    e ∈ store ∨ e = (k, v) := by
  induction store with
  | nil => simp [dictSet] at h; simp [h]
  | cons hd rest ih =>
    obtain ⟨k', v'⟩ := hd
    by_cases hk : k' = k
    · subst hk
      simp [dictSet] at h
      rcases h with h | h
      · exact Or.inr h
      · exact Or.inl (List.mem_cons_of_mem _ h)
    · simp [dictSet, hk] at h
      rcases h with h | h
      · exact Or.inl (by simp [h])
      · rcases ih h with h' | h'
        · exact Or.inl (List.mem_cons_of_mem _ h')
        · exact Or.inr h'

theorem pyRemove_eq_none {l : List String} {v : String} :
    pyRemove l v = none ↔ v ∉ l := by
  induction l with
  | nil => simp [pyRemove]
  | cons x xs ih =>
    by_cases hx : x = v
    · subst hx
      simp [pyRemove]
    · simp [pyRemove, hx, ih, Ne.symm hx]

theorem pyRemove_spec {l : List String} {v : String} (h : v ∈ l) :
    ∃ l₁ l₂, l = l₁ ++ v :: l₂ ∧ v ∉ l₁ ∧ pyRemove l v = some (l₁ ++ l₂) := by
  induction l with
  | nil => simp at h
  | cons x xs ih =>
    by_cases hx : x = v
    · subst hx
      exact ⟨[], xs, by simp, by simp, by simp [pyRemove]⟩
    · have hmem : v ∈ xs := by
        rcases List.mem_cons.mp h with h' | h'
        · exact absurd h'.symm hx
        · exact h'
      obtain ⟨l₁, l₂, heq, hnot, hrem⟩ := ih hmem
      exact ⟨x :: l₁, l₂, by simp [heq], by simp [hnot, Ne.symm hx],
        by simp [pyRemove, hx, hrem]⟩

theorem pyRemove_sublist {l l' : List String} {v : String}
    (h : pyRemove l v = some l') : l'.Sublist l := by
  induction l generalizing l' with
  | nil => simp [pyRemove] at h
  | cons x xs ih =>
    by_cases hx : x = v
    · subst hx
      simp [pyRemove] at h
      subst h
      exact List.sublist_cons_self _ _
    · simp [pyRemove, hx] at h
      obtain ⟨ys, hys, hl'⟩ := h
      subst hl'
      exact List.Sublist.cons₂ _ (ih hys)

/-! ### Handler evaluation lemmas -/

theorem signup_success_eq (store : Store) (name email : String) (act : Activity)
    (hfind : dictGet store name = some act) (hmem : email ∉ act.participants) :
    signup_for_activity store name email =
      .ok (.success ("Signed up " ++ email ++ " for " ++ name),
           dictSet store name
             { act with participants := act.participants ++ [email] }) := by
  unfold signup_for_activity find_one update_one
  rw [hfind]
  simp [withId, hmem]

theorem unregister_success_eq (store : Store) (name email : String)
    (act : Activity) (ps : List String)
    (hfind : dictGet store name = some act) (hmem : email ∈ act.participants)
    (hrem : pyRemove act.participants email = some ps) :
    unregister_from_activity store name email =
      .ok (.success ("Unregistered " ++ email ++ " from " ++ name),
           dictSet store name { act with participants := ps }) := by
  unfold unregister_from_activity find_one update_one
  rw [hfind]
  simp [withId, hmem, hrem]

/-! ### Claim theorems -/

/-- C1: for every stored activity and every email not already in that
activity's participants list, `POST /activities/{name}/signup` succeeds
with the message `Signed up {email} for {activity_name}`, and afterwards
the email appears exactly once in that activity's participants list. -/
theorem signup_new_email_succeeds (store : Store) (name email : String)
    (act : Activity) (hfind : dictGet store name = some act)
    (hmem : email ∉ act.participants) :
    ∃ store',
      signup_for_activity store name email =
        .ok (.success ("Signed up " ++ email ++ " for " ++ name), store') ∧
      ∃ act', dictGet store' name = some act' ∧
        act'.participants.count email = 1 := by
  refine ⟨dictSet store name
      { act with participants := act.participants ++ [email] },
    signup_success_eq store name email act hfind hmem,
    { act with participants := act.participants ++ [email] },
    dictGet_dictSet_self store name _, ?_⟩
  simp [List.count_append, List.count_eq_zero.mpr hmem]

/-- C1 witness: signing up a fresh email for Chess Club on a concrete
store succeeds and the email then occurs exactly once. -/
theorem signup_new_email_succeeds_witness :
    dictGet testStore "Chess Club" = some chessClub ∧
    "new@mergington.edu" ∉ chessClub.participants ∧
    ∃ store',
      signup_for_activity testStore "Chess Club" "new@mergington.edu" =
        .ok (.success
          ("Signed up " ++ "new@mergington.edu" ++ " for " ++ "Chess Club"),
          store') ∧
      ∃ act', dictGet store' "Chess Club" = some act' ∧
        act'.participants.count "new@mergington.edu" = 1 :=
  ⟨by decide, by decide,
    signup_new_email_succeeds testStore "Chess Club" "new@mergington.edu"
      chessClub (by decide) (by decide)⟩

/-- C3: for every stored activity and every email already present in its
participants, `POST /activities/{name}/signup` fails with BadRequest
(400, "Student is already signed up") and the store is unchanged. -/
theorem signup_duplicate_rejected (store : Store) (name email : String)
    (act : Activity) (hfind : dictGet store name = some act)
    (hmem : email ∈ act.participants) :
    signup_for_activity store name email =
      .ok (.httpError 400 "Student is already signed up", store) := by
  unfold signup_for_activity find_one
  rw [hfind]
  simp [withId, hmem]

/-- C3 witness: signing up an email already in Chess Club's participants
on a concrete store returns 400 and the unchanged store. -/
theorem signup_duplicate_rejected_witness :
    dictGet testStore "Chess Club" = some chessClub ∧
    "michael@mergington.edu" ∈ chessClub.participants ∧
    signup_for_activity testStore "Chess Club" "michael@mergington.edu" =
      .ok (.httpError 400 "Student is already signed up", testStore) :=
  ⟨by decide, by decide,
    signup_duplicate_rejected testStore "Chess Club" "michael@mergington.edu"
      chessClub (by decide) (by decide)⟩

/-- C4: for every activity name not present in the store and every email,
both `POST /activities/{name}/signup` and
`POST /activities/{name}/unregister` fail with NotFound (404,
"Activity not found") and the store is unchanged. -/
theorem unknown_activity_not_found (store : Store) (name email : String)
    (hnone : dictGet store name = none) :
    signup_for_activity store name email =
      .ok (.httpError 404 "Activity not found", store) ∧
    unregister_from_activity store name email =
      .ok (.httpError 404 "Activity not found", store) := by
  constructor
  · unfold signup_for_activity find_one
    rw [hnone]
    rfl
  · unfold unregister_from_activity find_one
    rw [hnone]
    rfl

/-- C4 witness: signup and unregister against an unknown activity name on
a concrete store both return 404 and the unchanged store. -/
theorem unknown_activity_not_found_witness :
    dictGet testStore "Robotics Club" = none ∧
    (signup_for_activity testStore "Robotics Club" "x@mergington.edu" =
        .ok (.httpError 404 "Activity not found", testStore) ∧
     unregister_from_activity testStore "Robotics Club" "x@mergington.edu" =
        .ok (.httpError 404 "Activity not found", testStore)) :=
  ⟨by decide,
    unknown_activity_not_found testStore "Robotics Club" "x@mergington.edu"
      (by decide)⟩

/-- C6: signup never enforces capacity: for every stored activity whose
participant count is already at least `max_participants`, signing up a
non-member email still succeeds and appends the email. -/
theorem signup_ignores_capacity (store : Store) (name email : String)
    (act : Activity) (hfind : dictGet store name = some act)
    (hmem : email ∉ act.participants)
    (hfull : act.max_participants ≤ act.participants.length) :
    ∃ store',
      signup_for_activity store name email =
        .ok (.success ("Signed up " ++ email ++ " for " ++ name), store') ∧
      ∃ act', dictGet store' name = some act' ∧
        act'.participants = act.participants ++ [email] := by
  exact ⟨dictSet store name
      { act with participants := act.participants ++ [email] },
    signup_success_eq store name email act hfind hmem,
    { act with participants := act.participants ++ [email] },
    dictGet_dictSet_self store name _, rfl⟩

/-- C6 witness: signing a fresh email up for an activity that is exactly
at capacity (1 of 1) still succeeds and appends the email. -/
theorem signup_ignores_capacity_witness :
    dictGet fullStore "Tiny Club" = some tinyClub ∧
    "b@mergington.edu" ∉ tinyClub.participants ∧
    tinyClub.max_participants ≤ tinyClub.participants.length ∧
    ∃ store',
      signup_for_activity fullStore "Tiny Club" "b@mergington.edu" =
        .ok (.success
          ("Signed up " ++ "b@mergington.edu" ++ " for " ++ "Tiny Club"),
          store') ∧
      ∃ act', dictGet store' "Tiny Club" = some act' ∧
        act'.participants = tinyClub.participants ++ ["b@mergington.edu"] :=
  ⟨by decide, by decide, by decide,
    signup_ignores_capacity fullStore "Tiny Club" "b@mergington.edu" tinyClub
      (by decide) (by decide) (by decide)⟩

/-- C2: unregistering a present email succeeds and removes exactly one
occurrence (the email count drops by one and the length drops by one);
unregistering an absent email fails with BadRequest (400) and the store
is unchanged. -/
theorem unregister_spec (store : Store) (name email : String) (act : Activity)
    (hfind : dictGet store name = some act) :
    (email ∈ act.participants →
      ∃ store' act',
        unregister_from_activity store name email =
          .ok (.success ("Unregistered " ++ email ++ " from " ++ name),
               store') ∧
        dictGet store' name = some act' ∧
        act'.participants.count email + 1 = act.participants.count email ∧
        act'.participants.length + 1 = act.participants.length) ∧
    (email ∉ act.participants →
      unregister_from_activity store name email =
        .ok (.httpError 400 "Student is not signed up for this activity",
             store)) := by
  constructor
  · intro hmem
    obtain ⟨l₁, l₂, heq, -, hrem⟩ := pyRemove_spec hmem
    refine ⟨dictSet store name { act with participants := l₁ ++ l₂ },
      { act with participants := l₁ ++ l₂ },
      unregister_success_eq store name email act (l₁ ++ l₂) hfind hmem hrem,
      dictGet_dictSet_self store name _, ?_, ?_⟩
    · simp [heq, List.count_append, List.count_cons]
      omega
    · simp [heq]
      omega
  · intro hmem
    unfold unregister_from_activity find_one
    rw [hfind]
    simp [withId, hmem]

/-- C2 witness: on a concrete store, unregistering a present email
succeeds and drops its count and the length by one, and unregistering an
absent email returns 400 with the unchanged store. -/
theorem unregister_spec_witness :
    dictGet testStore "Chess Club" = some chessClub ∧
    (("michael@mergington.edu" ∈ chessClub.participants →
      ∃ store' act',
        unregister_from_activity testStore "Chess Club"
            "michael@mergington.edu" =
          .ok (.success ("Unregistered " ++ "michael@mergington.edu" ++
              " from " ++ "Chess Club"), store') ∧
        dictGet store' "Chess Club" = some act' ∧
        act'.participants.count "michael@mergington.edu" + 1 =
          chessClub.participants.count "michael@mergington.edu" ∧
        act'.participants.length + 1 = chessClub.participants.length) ∧
    ("michael@mergington.edu" ∉ chessClub.participants →
      unregister_from_activity testStore "Chess Club"
          "michael@mergington.edu" =
        .ok (.httpError 400 "Student is not signed up for this activity",
             testStore))) :=
  ⟨by decide,
    unregister_spec testStore "Chess Club" "michael@mergington.edu" chessClub
      (by decide)⟩

/-- C5 counterexample: the claim as stated is false. On the concrete
store holding only Chess Club, a `$pull` of an email that is not in the
participants list hits an existing record, yet `update_one` raises
`ValueError` (from `list.remove`) instead of returning
`modified_count = 1`. -/
theorem update_one_claim_counterexample :
    ¬ updateOneAlwaysReportsExistence := by
  intro h
  obtain ⟨store', hs⟩ :=
    (h testStore "Chess Club" (.pull "absent@mergington.edu")).1 chessClub
      (by decide)
  rw [show update_one testStore "Chess Club"
        (UpdateOp.pull "absent@mergington.edu") =
      Except.error "ValueError: list.remove(x): x not in list" from rfl] at hs
  exact Except.noConfusion hs

/-- C5 amended: `update_one` returns `modified_count = 0` when no record
with the name exists; when the record exists, an add-to-list (`$push`)
returns `modified_count = 1`, and a remove-from-list (`$pull`) returns
`modified_count = 1` when the value is present in the list but raises a
`ValueError` when it is absent. -/
theorem update_one_modified_count (store : Store) (name : String)
    (op : UpdateOp) :
    (dictGet store name = none → update_one store name op = .ok (store, 0)) ∧
    (∀ act, dictGet store name = some act →
      ((∃ v, op = .push v) →
        ∃ store', update_one store name op = .ok (store', 1)) ∧
      (∀ v, op = .pull v → v ∈ act.participants →
        ∃ store', update_one store name op = .ok (store', 1)) ∧
      (∀ v, op = .pull v → v ∉ act.participants →
        update_one store name op =
          .error "ValueError: list.remove(x): x not in list")) := by
  constructor
  · intro hnone
    unfold update_one
    rw [hnone]
  · intro act hfind
    refine ⟨?_, ?_, ?_⟩
    · rintro ⟨v, rfl⟩
      refine ⟨dictSet store name
        { act with participants := act.participants ++ [v] }, ?_⟩
      unfold update_one
      rw [hfind]
    · rintro v rfl hmem
      obtain ⟨l₁, l₂, -, -, hrem⟩ := pyRemove_spec hmem
      refine ⟨dictSet store name { act with participants := l₁ ++ l₂ }, ?_⟩
      unfold update_one
      rw [hfind]
      simp [hrem]
    · rintro v rfl hmem
      unfold update_one
      rw [hfind]
      simp [pyRemove_eq_none.mpr hmem]

/-- C5 witness: on the concrete one-activity store, a `$pull` of a
present email against the existing Chess Club record reports
`modified_count = 1`. -/
theorem update_one_modified_count_witness :
    dictGet testStore "Chess Club" = some chessClub ∧
    "michael@mergington.edu" ∈ chessClub.participants ∧
    ∃ store',
      update_one testStore "Chess Club" (.pull "michael@mergington.edu") =
        .ok (store', 1) :=
  ⟨by decide, by decide,
    ((update_one_modified_count testStore "Chess Club"
        (.pull "michael@mergington.edu")).2 chessClub (by decide)).2.1
      "michael@mergington.edu" rfl (by decide)⟩

/-- C7: round-trip — seeding an empty store via `init_db` (an
`insert_one` of each of the 9 initial activities keyed by name) and then
reading it back through `GET /activities` yields exactly the seed data:
same names, descriptions, schedules, max_participants and participant
lists, in order. -/
theorem seed_roundtrip : get_activities (init_db []) = initial_activities := by
  rfl

/-- C8: for every store state, `GET /activities` keys the result by the
activity's name (each returned key equals the stored name, i.e. the
`_id` the documents of `find` carry) and strips the `_id` field from
each value object: the values are exactly the stored `Activity` records,
which carry no identifier field. -/
theorem get_activities_strips_id (store : Store) :
    get_activities store = store ∧
    (find store).map DocWithId._id = store.map Prod.fst := by
  constructor
  · induction store with
    | nil => rfl
    | cons e rest ih =>
      have h : get_activities (e :: rest) = e :: get_activities rest := rfl
      rw [h, ih]
  · rw [find, List.map_map]
    rfl

/-- C9: `count_documents` returns the total number of stored activities
for every store state and every filter argument; the filter never
affects the result. -/
theorem count_documents_ignores_filter (store : Store)
    (q q' : List (String × String)) :
    count_documents store q = store.length ∧
    count_documents store q = count_documents store q' :=
  ⟨rfl, rfl⟩

/-! ### The duplicate-freedom invariant (C10) -/

theorem signup_not_found_eq (store : Store) (name email : String)
    (hnone : dictGet store name = none) :
    signup_for_activity store name email =
      .ok (.httpError 404 "Activity not found", store) := by
  unfold signup_for_activity find_one
  rw [hnone]
  rfl

theorem signup_dup_eq (store : Store) (name email : String) (act : Activity)
    (hfind : dictGet store name = some act)
    (hmem : email ∈ act.participants) :
    signup_for_activity store name email =
      .ok (.httpError 400 "Student is already signed up", store) := by
  unfold signup_for_activity find_one
  rw [hfind]
  simp [withId, hmem]

theorem unregister_not_found_eq (store : Store) (name email : String)
    (hnone : dictGet store name = none) :
    unregister_from_activity store name email =
      .ok (.httpError 404 "Activity not found", store) := by
  unfold unregister_from_activity find_one
  rw [hnone]
  rfl

theorem unregister_absent_eq (store : Store) (name email : String)
    (act : Activity) (hfind : dictGet store name = some act)
    (hmem : email ∉ act.participants) :
    unregister_from_activity store name email =
      .ok (.httpError 400 "Student is not signed up for this activity",
           store) := by
  unfold unregister_from_activity find_one
  rw [hfind]
  simp [withId, hmem]

theorem applyCall_preserves_nodup {store : Store}
    (h : NodupParticipants store) (c : ApiCall) :
    NodupParticipants (applyCall store c) := by
  cases c with
  | signup name email =>
    cases hg : dictGet store name with
    | none =>
      have he : applyCall store (.signup name email) = store := by
        simp [applyCall, signup_not_found_eq store name email hg]
      rw [he]
      exact h
    | some act =>
      by_cases hm : email ∈ act.participants
      · have he : applyCall store (.signup name email) = store := by
          simp [applyCall, signup_dup_eq store name email act hg hm]
        rw [he]
        exact h
      · have he : applyCall store (.signup name email) =
            dictSet store name
              { act with participants := act.participants ++ [email] } := by
          simp [applyCall, signup_success_eq store name email act hg hm]
        rw [he]
        intro e he'
        rcases mem_dictSet he' with h' | h'
        · exact h e h'
        · subst h'
          have hnd : act.participants.Nodup := h _ (dictGet_mem hg)
          simp [List.nodup_append, hnd, hm]
  | unregister name email =>
    cases hg : dictGet store name with
    | none =>
      have he : applyCall store (.unregister name email) = store := by
        simp [applyCall, unregister_not_found_eq store name email hg]
      rw [he]
      exact h
    | some act =>
      by_cases hm : email ∈ act.participants
      · obtain ⟨l₁, l₂, -, -, hrem⟩ := pyRemove_spec hm
        have he : applyCall store (.unregister name email) =
            dictSet store name { act with participants := l₁ ++ l₂ } := by
          simp [applyCall,
            unregister_success_eq store name email act (l₁ ++ l₂) hg hm hrem]
        rw [he]
        intro e he'
        rcases mem_dictSet he' with h' | h'
        · exact h e h'
        · subst h'
          have hnd : act.participants.Nodup := h _ (dictGet_mem hg)
          exact hnd.sublist (pyRemove_sublist hrem)
      · have he : applyCall store (.unregister name email) = store := by
          simp [applyCall, unregister_absent_eq store name email act hg hm]
        rw [he]
        exact h

theorem foldl_applyCall_preserves_nodup (calls : List ApiCall) :
    ∀ store : Store, NodupParticipants store →
      NodupParticipants (calls.foldl applyCall store) := by
  induction calls with
  | nil => intro store hs; exact hs
  | cons c cs ih =>
    intro store hs
    exact ih _ (applyCall_preserves_nodup hs c)

/-- C10: starting from the seed data, every sequence of signup and
unregister API calls preserves the invariant that no activity's
participants list contains a duplicate email. -/
theorem seeded_store_participants_nodup (calls : List ApiCall) :
    NodupParticipants (calls.foldl applyCall (init_db [])) := by
  refine foldl_applyCall_preserves_nodup calls _ ?_
  have h : init_db [] = initial_activities := rfl
  rw [h]
  show ∀ e ∈ initial_activities, e.2.participants.Nodup
  decide

end Mergington
